import Mathlib

/-!
Shallow embedding of the `linux-kiosk-display` daemons
(`bin/kiosk-idle-reset.py` and `bin/kiosk-tab-cycler.py`) and proofs about
the behaviour their specification claims.

Conventions of the embedding:
* Wall-clock seconds are modelled as `Int` (the code only compares and
  subtracts timestamps, so the float precision is irrelevant to the claims).
* JSON documents are modelled by the inductive `Json`; Python coercions
  (`int(...)`, truthiness) are modelled explicitly.
* Filesystem failure modes (missing file, unreadable file, malformed JSON)
  are explicit constructors, mirroring the `try/except` structure of the code.
* The main loop of `kiosk-idle-reset.py` is one iteration step `stepIter`
  acting on `LoopState`, with the per-iteration inputs (current time, config
  file mtime and contents, the batch of ready input events, the discarded
  result of the recovery wait) gathered into `IterInput`.  Side effects
  (subprocess calls, state-file writes) are recorded as an `Action` trace.
-/

namespace Kiosk

/-- A parsed JSON value, as produced by Python's `json.load`.
Numbers are modelled as integers (the fields the daemons read are integer
seconds; float semantics play no role in any claim). -/
inductive Json where
  | null
  | bool (b : Bool)
  | int (n : Int)
  | str (s : String)
  | arr (xs : List Json)
  | obj (kvs : List (String × Json))

/-- Python truthiness of a JSON value (`bool(x)` for values coming out of
`json.load`): `None`, `False`, `0`, `""`, `[]`, `{}` are falsy. -/
def pyTruthy : Json → Bool
  | .null => false
  | .bool b => b
  | .int n => n != 0
  | .str s => s ≠ ""
  | .arr xs => !xs.isEmpty
  | .obj kvs => !kvs.isEmpty

/-- Python `int(x)` applied to a JSON value: succeeds on ints and bools,
parses integer strings (`ValueError` otherwise), raises `TypeError` on
`None`, lists and dicts.  `none` models the raised exception. -/
def pyToInt : Json → Option Int
  | .int n => some n
  | .bool b => some (if b then 1 else 0)
  | .str s => s.toInt?
  | _ => none

/-- Association-list lookup, the model of indexing into a parsed JSON object
(for duplicate keys `json.load` keeps the last, but no claim involves
duplicate keys). -/
def jsonLookup : List (String × Json) → String → Option Json
  | [], _ => none
  | (k, v) :: rest, key => if k = key then some v else jsonLookup rest key

/-- Python `data.get(key, default-absent)` on a parsed JSON value:
`none` models the `AttributeError` raised when the value is not a dict;
`some none` models the key being absent (so `.get` returns the default);
`some (some v)` models the key being present with value `v`. -/
def jsonGet : Json → String → Option (Option Json)
  | .obj kvs, key => some (jsonLookup kvs key)
  | _, _ => none

/-- The possible conditions of a JSON file on disk, as distinguished by the
`try/except` structure of the readers. -/
inductive JsonFile where
  | absent      -- `os.path.exists` is false
  | unreadable  -- `open`/read raises (permissions, I/O error)
  | malformed   -- `json.load` raises
  | parsed (v : Json)  -- `json.load` succeeds with this value

/-- `DEFAULT_IDLE = 600` (fallback idle time, 10 minutes). -/
def DEFAULT_IDLE : Int := 600

/-- `load_idle_timeout` from `bin/kiosk-idle-reset.py`:
```
try:
    if os.path.exists(CONFIG_FILE):
        with open(CONFIG_FILE) as f:
            cfg = json.load(f)
        return int(cfg.get("idle_timeout", DEFAULT_IDLE))
except Exception as e:
    print(f"Error loading config: ...")
return DEFAULT_IDLE
```
Every exception path (unreadable file, bad JSON, `cfg` not a dict, value not
coercible to int) falls through to `DEFAULT_IDLE`; a missing file skips the
body and also returns `DEFAULT_IDLE`. -/
def load_idle_timeout : JsonFile → Int
  | .absent => DEFAULT_IDLE
  | .unreadable => DEFAULT_IDLE
  | .malformed => DEFAULT_IDLE
  | .parsed v =>
    match jsonGet v "idle_timeout" with
    | none => DEFAULT_IDLE             -- cfg.get raised: not a dict
    | some none => DEFAULT_IDLE        -- key absent: int(DEFAULT_IDLE)
    | some (some j) =>
      match pyToInt j with
      | none => DEFAULT_IDLE           -- int(...) raised
      | some n => n

/-- `is_idle` from `bin/kiosk-tab-cycler.py`:
```
try:
    if os.path.exists(STATE_FILE):
        with open(STATE_FILE) as f:
            data = json.load(f)
        return not data.get("active", False)
except Exception:
    pass
return True
```
A missing, unreadable or malformed file, a non-dict document, and an absent
`active` key all yield `True` (idle); otherwise the result is the Python
negation of the stored value's truthiness. -/
def is_idle : JsonFile → Bool
  | .absent => true
  | .unreadable => true
  | .malformed => true
  | .parsed v =>
    match jsonGet v "active" with
    | none => true                     -- data.get raised: not a dict
    | some none => true                -- key absent: not False
    | some (some a) => !(pyTruthy a)

/-- `write_state` from `bin/kiosk-idle-reset.py` opens `STATE_FILE` with mode
`"w"` — which truncates the file in place — and then `json.dump`s the new
document into it.  The sequence of file contents observable by a concurrent
reader is therefore: the old contents, the empty file left by the truncating
open, then the new serialized document.  (`old` and `new` are the serialized
documents before and after the call.) -/
def write_state_observable (old new : String) : List String :=
  [old, "", new]

/-- Modelled from the spec: the write-to-temp-then-rename discipline the
specification describes for the Shared State Publisher (the repository's
`write_state` does not implement it).  A rename is atomic, so a concurrent
reader observes only the old or the new contents. -/
def atomicWrite_observable (old new : String) : List String :=
  [old, new]

/-- A trace of observable file contents is atomic with respect to an
update from `old` to `new` when a concurrent reader can only ever see the
old or the new document. -/
def AtomicTrace (trace : List String) (old new : String) : Prop :=
  ∀ s ∈ trace, s = old ∨ s = new

/-! ### The main loop of `bin/kiosk-idle-reset.py` -/

/-- `ecodes.KEY_F4` (Linux input key code 62). -/
def F4_KEYCODE : ℕ := 62

/-- `ALT_KEYCODES = {ecodes.KEY_LEFTALT, ecodes.KEY_RIGHTALT}` (codes 56 and 100). -/
def ALT_KEYCODES : Finset ℕ := {56, 100}

/-- An input event delivered by a device, as far as the loop inspects it:
the loop branches on `ev.type` (`EV_KEY` vs `EV_REL`/`EV_ABS` vs anything
else, e.g. `EV_SYN`) and, for key events, on `ev.code` and `ev.value`
(1 = key down, 0 = key up, 2 = autorepeat). -/
inductive Ev where
  | key (code : ℕ) (value : ℕ)
  | rel
  | abs
  | other
deriving DecidableEq

/-- The externally observable side effects a loop iteration can perform,
in the order they are performed. -/
inductive Action where
  | publish (active : Bool)  -- `write_state(active)`
  | resetScript              -- `subprocess.run([RESET_SCRIPT], check=False)`
  | waitRecovery             -- `wait_for_chromium(timeout=5)`
  | stopServices             -- `stop_all_services()`
deriving DecidableEq

/-- The mutable state of `main`'s loop: `last_activity`, `pressed_keys`,
`idle_seconds`, `last_config_mtime`, plus the contents last written to the
state file (`published` mirrors the argument of the most recent
`write_state` call; `main` calls `write_state(True)` before entering the
loop, so at loop entry it is `some true`). -/
structure LoopState where
  lastActivity : Int
  pressedKeys : Finset ℕ
  idleSeconds : Int
  lastConfigMtime : Int
  published : Option Bool
deriving DecidableEq

/-- The environment one loop iteration runs in:
* `configMtime` — `some m` when `os.path.exists(CONFIG_FILE)` is true and
  `os.path.getmtime` returns `m`; `none` when the file is absent or the
  mtime check raises (both are caught and treated as no change);
* `configFile` — what `load_idle_timeout` would see if a reload is triggered;
* `now` — the `time.time()` reading taken right after `select` returns;
* `events` — the events read from the ready descriptors, in order (`select`
  with a 1-second timeout returns no ready descriptors on timeout, in which
  case this list is empty; with zero tracked devices it is always empty);
* `recoveryOk` — the result that `wait_for_chromium` would return during a
  reset this iteration; the code discards it. -/
structure IterInput where
  configMtime : Option Int
  configFile : JsonFile
  now : Int
  events : List Ev
  recoveryOk : Bool

/-- The per-event body of the inner `for ev in d.read()` loop.  Key-down
events insert the code into `pressed_keys` and then test the ALT+F4 chord;
on a hit the code runs `stop_all_services()` and returns from `main`, so the
remaining events are not processed (the `Bool` component is the returned
flag).  Key-up events remove the code (`discard` is a no-op when absent).
Motion events (`EV_REL`/`EV_ABS`) set `last_activity = now` and call
`write_state(True)` unconditionally.  Other event types are ignored. -/
def processEvents (now : Int) : List Ev → LoopState → LoopState × List Action × Bool
  | [], s => (s, [], false)
  | .key c 1 :: rest, s =>
    let s' := { s with pressedKeys := insert c s.pressedKeys }
    if F4_KEYCODE ∈ s'.pressedKeys ∧ (s'.pressedKeys ∩ ALT_KEYCODES).Nonempty then
      (s', [.stopServices], true)
    else
      processEvents now rest s'
  | .key c 0 :: rest, s =>
    processEvents now rest { s with pressedKeys := s.pressedKeys.erase c }
  | .key _ _ :: rest, s =>
    processEvents now rest s
  | .rel :: rest, s =>
    let out := processEvents now rest { s with lastActivity := now, published := some true }
    (out.1, .publish true :: out.2.1, out.2.2)
  | .abs :: rest, s =>
    let out := processEvents now rest { s with lastActivity := now, published := some true }
    (out.1, .publish true :: out.2.1, out.2.2)
  | .other :: rest, s =>
    processEvents now rest s

/-- The config-reload check at the top of every iteration:
```
try:
    if os.path.exists(CONFIG_FILE):
        mtime = os.path.getmtime(CONFIG_FILE)
        if mtime != last_config_mtime:
            idle_seconds = load_idle_timeout()
            last_config_mtime = mtime
except Exception as e: ...
```
An absent file (or a raising mtime check) changes nothing; an unchanged
mtime changes nothing; a changed mtime reloads the timeout and records the
new mtime. -/
def checkConfig (s : LoopState) (mt : Option Int) (file : JsonFile) : LoopState :=
  match mt with
  | none => s
  | some m =>
    if m = s.lastConfigMtime then s
    else { s with idleSeconds := load_idle_timeout file, lastConfigMtime := m }

/-- One iteration of `main`'s `while True` loop: run the config-reload
check, `select` with a 1-second timeout, read `now`; if any descriptor is
ready (`if r:`), process the pending events; otherwise (`elif`), when
`now - last_activity >= idle_seconds`, run the reset sequence — invoke the
reset script, wait for the browser to reappear (result discarded), publish
`active=False`, and set `last_activity = now`.  Returns the successor state,
the ordered side-effect trace, and whether `main` returned (ALT+F4). -/
def stepIter (s : LoopState) (inp : IterInput) : LoopState × List Action × Bool :=
  let s₁ := checkConfig s inp.configMtime inp.configFile
  if inp.events.isEmpty then
    if s₁.idleSeconds ≤ inp.now - s₁.lastActivity then
      ({ s₁ with lastActivity := inp.now, published := some false },
       [.resetScript, .waitRecovery, .publish false], false)
    else
      (s₁, [], false)
  else
    processEvents inp.now inp.events s₁

/-- Iterating `stepIter` over a list of per-iteration inputs, accumulating
each iteration's side-effect trace; a chord hit (`main` returning) stops
the run. -/
def runLoop (s : LoopState) : List IterInput → LoopState × List (List Action) × Bool
  | [] => (s, [], false)
  | inp :: rest =>
    let out := stepIter s inp
    if out.2.2 then (out.1, [out.2.1], true)
    else
      let tail := runLoop out.1 rest
      (tail.1, out.2.1 :: tail.2.1, tail.2.2)

/-- `wait_for_chromium(timeout)`: polls `chromium_running()` once per second
and returns whether the browser reappeared within the timeout.  `running k`
is the poll result at second `k` after the reset. -/
def wait_for_chromium (running : ℕ → Bool) (timeout : ℕ) : Bool :=
  (List.range timeout).any running

/-- A candidate `/dev/input/event*` node as `get_input_devices` examines it:
whether `os.access(path, os.R_OK)` holds, whether constructing `InputDevice`
succeeds, and the keys of its capability dictionary (event-type numbers:
`EV_KEY = 1`, `EV_REL = 2`, `EV_ABS = 3`). -/
structure RawDevice where
  readable : Bool
  openOk : Bool
  capTypes : List ℕ

/-- `get_input_devices`: skip unreadable nodes, skip nodes whose open
raises, and keep only devices advertising `EV_KEY`, `EV_REL` or `EV_ABS`
capability. -/
def get_input_devices (ds : List RawDevice) : List RawDevice :=
  ds.filter fun d =>
    d.readable && d.openOk && d.capTypes.any (fun t => t == 1 || t == 2 || t == 3)

/-- Is an event a key-class event (`EV_KEY`)? -/
def isKeyEv : Ev → Bool
  | .key _ _ => true
  | _ => false

/-- An iteration input in which the config file is unchanged/absent and at
least one event arrived, all of them key-class events. -/
def keyOnlyInput (inp : IterInput) : Bool :=
  inp.configMtime.isNone && !inp.events.isEmpty && inp.events.all isKeyEv

/-- An iteration input in which `select` reported no ready descriptor
(always the case when the tracked-device list is empty). -/
def eventFree (inp : IterInput) : Bool :=
  inp.events.isEmpty

/-! ### Helper lemmas -/

/-- Event processing never touches the configuration fields: only the
config-reload check writes `idle_seconds` and `last_config_mtime`. -/
theorem processEvents_config_fields (now : Int) (evs : List Ev) (s : LoopState) :
    (processEvents now evs s).1.idleSeconds = s.idleSeconds ∧
    (processEvents now evs s).1.lastConfigMtime = s.lastConfigMtime := by
  induction evs generalizing s with
  | nil => exact ⟨rfl, rfl⟩
  | cons ev rest ih =>
    cases ev with
    | key c v =>
      match v with
      | 0 => exact ih _
      | 1 =>
        rw [processEvents]
        split
        · exact ⟨rfl, rfl⟩
        · exact ih _
      | (n + 2) => exact ih _
    | rel => exact ih _
    | abs => exact ih _
    | other => exact ih _

/-- Processing a batch of key-class events can change only `pressed_keys`
(and possibly fire the chord): the idle clock, the published state and the
configuration fields are untouched. -/
theorem processEvents_keyOnly (now : Int) (evs : List Ev) (s : LoopState)
    (h : evs.all isKeyEv = true) :
    (processEvents now evs s).1.lastActivity = s.lastActivity ∧
    (processEvents now evs s).1.published = s.published ∧
    (processEvents now evs s).2.1.all (fun a => a = Action.stopServices) = true := by
  induction evs generalizing s with
  | nil => exact ⟨rfl, rfl, rfl⟩
  | cons ev rest ih =>
    rw [List.all_cons, Bool.and_eq_true] at h
    cases ev with
    | key c v =>
      match v with
      | 0 => exact ih _ h.2
      | 1 =>
        rw [processEvents]
        split
        · exact ⟨rfl, rfl, rfl⟩
        · exact ih _ h.2
      | (n + 2) => exact ih _ h.2
    | rel => simp [isKeyEv] at h
    | abs => simp [isKeyEv] at h
    | other => simp [isKeyEv] at h

/-- `checkConfig` leaves a state alone when the mtime probe reports no file. -/
theorem checkConfig_none (s : LoopState) (file : JsonFile) :
    checkConfig s none file = s := rfl

/-- An iteration with no ready descriptors and no config change: either the
gap has reached the timeout and the reset sequence runs, or nothing happens. -/
theorem stepIter_noEvents (s : LoopState) (inp : IterInput)
    (he : inp.events = []) (hm : inp.configMtime = none) :
    stepIter s inp =
      if s.idleSeconds ≤ inp.now - s.lastActivity then
        ({ s with lastActivity := inp.now, published := some false },
         [.resetScript, .waitRecovery, .publish false], false)
      else (s, [], false) := by
  rw [stepIter, hm, he]
  rfl

/-- A quiet iteration (no events, no config change, gap below the timeout)
is a no-op. -/
theorem stepIter_quiet (s : LoopState) (inp : IterInput)
    (he : inp.events = []) (hm : inp.configMtime = none)
    (hq : inp.now - s.lastActivity < s.idleSeconds) :
    stepIter s inp = (s, [], false) := by
  rw [stepIter_noEvents s inp he hm, if_neg (not_le.mpr hq)]

/-! ### C6 — atomicity of the state-file write -/

/-- C6, counterexample: `write_state` is not atomic.  Writing a new document
over an old one exposes the empty file left by the truncating `open(..., "w")`,
an intermediate state that is neither the old nor the new contents, so a
concurrent reader can observe a partially written (here: empty) document. -/
theorem write_state_not_atomic_cex :
    ¬ AtomicTrace (write_state_observable "old" "new") "old" "new" := by
  intro h
  have hmem : "" ∈ write_state_observable "old" "new" := by
    simp [write_state_observable]
  rcases h "" hmem with h1 | h1 <;> simp at h1

/-- C6, amended: every call to `write_state` overwrites the state file in
place — a truncating open followed by the serialization — so the observable
contents pass through an intermediate empty document; whenever the old and
new serializations are nonempty this intermediate state lies outside the
atomic write-to-temp-then-rename model, and the trace is not atomic. -/
theorem write_state_truncates_in_place (old new : String)
    (ho : old ≠ "") (hn : new ≠ "") :
    "" ∈ write_state_observable old new ∧
    "" ∉ atomicWrite_observable old new ∧
    ¬ AtomicTrace (write_state_observable old new) old new := by
  refine ⟨by simp [write_state_observable], ?_, ?_⟩
  · intro hmem
    rcases (by simpa [atomicWrite_observable] using hmem : "" = old ∨ "" = new) with h | h
    · exact ho h.symm
    · exact hn h.symm
  · intro h
    rcases h "" (by simp [write_state_observable]) with h1 | h1
    · exact ho h1.symm
    · exact hn h1.symm

/-- C6, witness for the amended theorem at concrete serialized documents. -/
theorem write_state_truncates_in_place_witness :
    ("old" ≠ "") ∧ ("new" ≠ "") ∧
    ("" ∈ write_state_observable "old" "new" ∧
     "" ∉ atomicWrite_observable "old" "new" ∧
     ¬ AtomicTrace (write_state_observable "old" "new") "old" "new") :=
  ⟨by decide, by decide,
   write_state_truncates_in_place "old" "new" (by decide) (by decide)⟩

/-! ### C7 — config loading always yields an integer, but not always positive -/

/-- C7, counterexample: a readable, well-formed config `{"idle_timeout": -5}`
makes `load_idle_timeout` return `-5` without any exception, so the loader
does not always return a positive integer. -/
theorem load_idle_timeout_negative_cex :
    load_idle_timeout (.parsed (.obj [("idle_timeout", .int (-5))])) = -5 ∧
    ¬ 0 < load_idle_timeout (.parsed (.obj [("idle_timeout", .int (-5))])) := by
  decide

/-- C7, amended: for every configuration-file state, `load_idle_timeout`
returns an integer without propagating an error: the default 600 on an
absent, unreadable or malformed file, and otherwise either the default
(key missing, document not an object, value not coercible) or the configured
value coerced by Python `int(...)` — which is not guaranteed positive. -/
theorem load_idle_timeout_default_or_configured (f : JsonFile) :
    load_idle_timeout .absent = DEFAULT_IDLE ∧
    load_idle_timeout .unreadable = DEFAULT_IDLE ∧
    load_idle_timeout .malformed = DEFAULT_IDLE ∧
    (load_idle_timeout f = DEFAULT_IDLE ∨
      ∃ v j n, f = .parsed v ∧ jsonGet v "idle_timeout" = some (some j) ∧
        pyToInt j = some n ∧ load_idle_timeout f = n) := by
  refine ⟨rfl, rfl, rfl, ?_⟩
  cases f with
  | absent => exact Or.inl rfl
  | unreadable => exact Or.inl rfl
  | malformed => exact Or.inl rfl
  | parsed v =>
    cases hg : jsonGet v "idle_timeout" with
    | none => exact Or.inl (by rw [load_idle_timeout, hg])
    | some o =>
      cases o with
      | none => exact Or.inl (by rw [load_idle_timeout, hg])
      | some j =>
        cases hi : pyToInt j with
        | none => exact Or.inl (by simp [load_idle_timeout, hg, hi])
        | some n =>
          exact Or.inr ⟨v, j, n, rfl, hg, hi, by simp [load_idle_timeout, hg, hi]⟩

/-! ### C10 — the cycler's idleness check -/

/-- C10, counterexample: the state document `{"active": 1}` is parsable and
its `active` field is not the boolean `true`, yet `is_idle` reports the
kiosk as active (`false`), because `not data.get("active", False)` uses
Python truthiness rather than comparing with `True`. -/
theorem is_idle_truthy_cex :
    is_idle (.parsed (.obj [("active", .int 1)])) = false ∧
    jsonGet (.obj [("active", .int 1)]) "active" = some (some (.int 1)) ∧
    Json.int 1 ≠ Json.bool true := by
  refine ⟨rfl, rfl, fun h => Json.noConfusion h⟩

/-- C10, amended: a missing, unreadable or unparsable state file, a non-dict
document and an absent `active` field all read as idle; the check reports
active exactly when a parsable document carries an `active` field whose
value is truthy in Python's sense (so the boolean `true`, but also any
nonzero number or nonempty string). -/
theorem is_idle_iff_truthy_active (f : JsonFile) :
    is_idle .absent = true ∧
    is_idle .unreadable = true ∧
    is_idle .malformed = true ∧
    (is_idle f = false ↔
      ∃ v a, f = .parsed v ∧ jsonGet v "active" = some (some a) ∧ pyTruthy a = true) := by
  refine ⟨rfl, rfl, rfl, ?_⟩
  constructor
  · intro h
    cases f with
    | absent => exact absurd h (by simp [is_idle])
    | unreadable => exact absurd h (by simp [is_idle])
    | malformed => exact absurd h (by simp [is_idle])
    | parsed v =>
      cases hg : jsonGet v "active" with
      | none => rw [is_idle, hg] at h; exact absurd h (by simp)
      | some o =>
        cases o with
        | none => rw [is_idle, hg] at h; exact absurd h (by simp)
        | some a =>
          refine ⟨v, a, rfl, hg, ?_⟩
          rw [is_idle, hg] at h
          simpa using h
  · rintro ⟨v, a, rfl, hg, ha⟩
    simp [is_idle, hg, ha]

/-! ### C3 — the ALT+F4 emergency-stop chord -/

/-- C3: the emergency stop (stop all services, terminate the loop) fires at
a key-down evaluation exactly when, after inserting the pressed code, the F4
code is held and the held-key set meets the modifier set {left-alt,
right-alt}; it never fires at a key-up; and concretely the chord fires for
modifier-then-F4 and for F4-then-modifier alike, while releasing the
modifier before F4 is pressed prevents it. -/
theorem hotkey_chord_characterization (s : LoopState) (c : ℕ) (now : Int) :
    ((processEvents now [.key c 1] s).2.2 = true ↔
      (F4_KEYCODE ∈ insert c s.pressedKeys ∧
        ((insert c s.pressedKeys) ∩ ALT_KEYCODES).Nonempty)) ∧
    (Action.stopServices ∈ (processEvents now [.key c 1] s).2.1 ↔
      (processEvents now [.key c 1] s).2.2 = true) ∧
    (processEvents now [.key c 0] s).2.2 = false ∧
    (processEvents now [.key 56 1, .key 62 1] ⟨0, ∅, 600, 0, some true⟩).2.2 = true ∧
    (processEvents now [.key 62 1, .key 100 1] ⟨0, ∅, 600, 0, some true⟩).2.2 = true ∧
    (processEvents now [.key 56 1, .key 56 0, .key 62 1] ⟨0, ∅, 600, 0, some true⟩).2.2
      = false := by
  refine ⟨?_, ?_, rfl, ?_, ?_, ?_⟩
  · by_cases h : F4_KEYCODE ∈ insert c s.pressedKeys ∧
        ((insert c s.pressedKeys) ∩ ALT_KEYCODES).Nonempty
    · rw [processEvents, if_pos h]
      exact iff_of_true rfl h
    · rw [processEvents, if_neg h]
      exact iff_of_false (by simp [processEvents]) h
  · by_cases h : F4_KEYCODE ∈ insert c s.pressedKeys ∧
        ((insert c s.pressedKeys) ∩ ALT_KEYCODES).Nonempty
    · rw [processEvents, if_pos h]
      simp
    · rw [processEvents, if_neg h]
      simp [processEvents]
  · rw [processEvents, if_neg (by decide), processEvents, if_pos (by decide)]
  · rw [processEvents, if_neg (by decide), processEvents, if_pos (by decide)]
  · rw [processEvents, if_neg (by decide), processEvents, processEvents,
      if_neg (by decide)]
    rfl

/-! ### C4 — order of the reset sequence -/

/-- C4, counterexample: at a firing iteration the side-effect trace is
reset script, then recovery wait, then `active=false` — the publish is not
performed before the reset is invoked as claimed, so an observer of the
state file still reads `active=true` while the reset runs. -/
theorem reset_order_cex :
    (stepIter ⟨0, ∅, 5, 0, some true⟩ ⟨none, .absent, 6, [], true⟩).2.1 =
      [.resetScript, .waitRecovery, .publish false] ∧
    (stepIter ⟨0, ∅, 5, 0, some true⟩ ⟨none, .absent, 6, [], true⟩).2.1 ≠
      [.publish false, .resetScript, .waitRecovery] := by
  decide

/-- C4, amended: when the idle timeout fires, the loop invokes the external
reset action, then waits for recovery, then publishes `active=false`, and
finally sets `last_activity` to the iteration's current time; the observer
therefore sees `active=false` only after the reset and the recovery wait
have completed, and `active=true` again once fresh motion is processed. -/
theorem reset_sequence_order (s : LoopState) (inp : IterInput)
    (he : inp.events = []) (hm : inp.configMtime = none)
    (hf : s.idleSeconds ≤ inp.now - s.lastActivity) :
    (stepIter s inp).2.1 = [.resetScript, .waitRecovery, .publish false] ∧
    (stepIter s inp).1.lastActivity = inp.now ∧
    (stepIter s inp).1.published = some false ∧
    (stepIter s inp).2.2 = false := by
  rw [stepIter_noEvents s inp he hm, if_pos hf]
  exact ⟨rfl, rfl, rfl, rfl⟩

/-- C4, witness: timeout 5, last activity at 0, a quiet poll at time 6. -/
theorem reset_sequence_order_witness :
    ((⟨none, .absent, 6, [], true⟩ : IterInput).events = []) ∧
    ((⟨none, .absent, 6, [], true⟩ : IterInput).configMtime = none) ∧
    ((⟨0, ∅, 5, 0, some true⟩ : LoopState).idleSeconds ≤
      (⟨none, .absent, 6, [], true⟩ : IterInput).now -
        (⟨0, ∅, 5, 0, some true⟩ : LoopState).lastActivity) ∧
    ((stepIter ⟨0, ∅, 5, 0, some true⟩ ⟨none, .absent, 6, [], true⟩).2.1 =
        [.resetScript, .waitRecovery, .publish false] ∧
      (stepIter ⟨0, ∅, 5, 0, some true⟩ ⟨none, .absent, 6, [], true⟩).1.lastActivity =
        (⟨none, .absent, 6, [], true⟩ : IterInput).now ∧
      (stepIter ⟨0, ∅, 5, 0, some true⟩ ⟨none, .absent, 6, [], true⟩).1.published =
        some false ∧
      (stepIter ⟨0, ∅, 5, 0, some true⟩ ⟨none, .absent, 6, [], true⟩).2.2 = false) :=
  ⟨rfl, rfl, by decide,
   reset_sequence_order ⟨0, ∅, 5, 0, some true⟩ ⟨none, .absent, 6, [], true⟩
     rfl rfl (by decide)⟩

/-! ### C5 — motion events and publishing -/

/-- C5, counterexample: with the previously published state already
`active=true`, a single motion event still calls `write_state(True)` — the
publish is unconditional, not guarded by the previously published state. -/
theorem motion_republish_cex :
    (⟨0, ∅, 600, 0, some true⟩ : LoopState).published = some true ∧
    (processEvents 7 [.rel] ⟨0, ∅, 600, 0, some true⟩).2.1 = [.publish true] ∧
    (processEvents 7 [.rel] ⟨0, ∅, 600, 0, some true⟩).2.1 ≠ [] := by
  decide

/-- C5, amended: on every motion-class event (`EV_REL` or `EV_ABS`) the loop
sets `last_activity` to the current time and publishes `active=true`
unconditionally, whatever was previously published. -/
theorem motion_updates_clock_and_publishes (s : LoopState) (now : Int) (ev : Ev)
    (hm : ev = .rel ∨ ev = .abs) :
    processEvents now [ev] s =
      ({ s with lastActivity := now, published := some true },
       [.publish true], false) := by
  rcases hm with h | h <;> subst h <;> rfl

/-- C5, witness for the amended theorem: one relative-motion event at time 7
while the published state is already `active=true`. -/
theorem motion_updates_clock_and_publishes_witness :
    (Ev.rel = Ev.rel ∨ Ev.rel = Ev.abs) ∧
    processEvents 7 [.rel] ⟨0, ∅, 600, 0, some true⟩ =
      ({ (⟨0, ∅, 600, 0, some true⟩ : LoopState) with
          lastActivity := 7, published := some true },
       [.publish true], false) :=
  ⟨Or.inl rfl,
   motion_updates_clock_and_publishes ⟨0, ∅, 600, 0, some true⟩ 7 .rel (Or.inl rfl)⟩

/-! ### C1 — one reset per idle gap, idle clock reset unconditionally -/

/-- C1: when a quiet poll finds the gap since `last_activity` at or beyond
the timeout, the iteration performs the reset sequence; `last_activity` is
set to the iteration's current time unconditionally — the result of the
recovery poll is discarded, so the step is oblivious to recovery success or
failure — and any later quiet poll whose time is still within a full
timeout of the reset is a complete no-op (same state, no actions), so no
second reset occurs until another full timeout elapses without motion. -/
theorem idle_reset_once_per_gap (s : LoopState) (inp₁ inp₂ : IterInput) (b₁ b₂ : Bool)
    (h₁e : inp₁.events = []) (h₁m : inp₁.configMtime = none)
    (h₂e : inp₂.events = []) (h₂m : inp₂.configMtime = none)
    (hfire : s.idleSeconds ≤ inp₁.now - s.lastActivity)
    (hgap : inp₂.now - inp₁.now < s.idleSeconds) :
    (stepIter s inp₁).2.1 = [.resetScript, .waitRecovery, .publish false] ∧
    (stepIter s inp₁).1 = { s with lastActivity := inp₁.now, published := some false } ∧
    stepIter s { inp₁ with recoveryOk := b₁ } = stepIter s { inp₁ with recoveryOk := b₂ } ∧
    stepIter (stepIter s inp₁).1 inp₂ = ((stepIter s inp₁).1, [], false) := by
  have hs : stepIter s inp₁ =
      ({ s with lastActivity := inp₁.now, published := some false },
       [.resetScript, .waitRecovery, .publish false], false) := by
    rw [stepIter_noEvents s inp₁ h₁e h₁m, if_pos hfire]
  refine ⟨by rw [hs], by rw [hs], rfl, ?_⟩
  rw [hs]
  exact stepIter_quiet _ inp₂ h₂e h₂m (by simpa using hgap)

/-- C1, witness: timeout 5, last activity 0, quiet polls at times 6 and 8. -/
theorem idle_reset_once_per_gap_witness :
    ((⟨none, .absent, 6, [], true⟩ : IterInput).events = []) ∧
    ((⟨none, .absent, 6, [], true⟩ : IterInput).configMtime = none) ∧
    ((⟨none, .absent, 8, [], false⟩ : IterInput).events = []) ∧
    ((⟨none, .absent, 8, [], false⟩ : IterInput).configMtime = none) ∧
    ((⟨0, ∅, 5, 0, some true⟩ : LoopState).idleSeconds ≤
      (⟨none, .absent, 6, [], true⟩ : IterInput).now -
        (⟨0, ∅, 5, 0, some true⟩ : LoopState).lastActivity) ∧
    ((⟨none, .absent, 8, [], false⟩ : IterInput).now -
        (⟨none, .absent, 6, [], true⟩ : IterInput).now <
      (⟨0, ∅, 5, 0, some true⟩ : LoopState).idleSeconds) ∧
    ((stepIter ⟨0, ∅, 5, 0, some true⟩ ⟨none, .absent, 6, [], true⟩).2.1 =
        [.resetScript, .waitRecovery, .publish false] ∧
      (stepIter ⟨0, ∅, 5, 0, some true⟩ ⟨none, .absent, 6, [], true⟩).1 =
        { (⟨0, ∅, 5, 0, some true⟩ : LoopState) with
            lastActivity := (⟨none, .absent, 6, [], true⟩ : IterInput).now,
            published := some false } ∧
      stepIter ⟨0, ∅, 5, 0, some true⟩
          { (⟨none, .absent, 6, [], true⟩ : IterInput) with recoveryOk := true } =
        stepIter ⟨0, ∅, 5, 0, some true⟩
          { (⟨none, .absent, 6, [], true⟩ : IterInput) with recoveryOk := false } ∧
      stepIter (stepIter ⟨0, ∅, 5, 0, some true⟩ ⟨none, .absent, 6, [], true⟩).1
          ⟨none, .absent, 8, [], false⟩ =
        ((stepIter ⟨0, ∅, 5, 0, some true⟩ ⟨none, .absent, 6, [], true⟩).1, [], false)) :=
  ⟨rfl, rfl, rfl, rfl, by decide, by decide,
   idle_reset_once_per_gap ⟨0, ∅, 5, 0, some true⟩ ⟨none, .absent, 6, [], true⟩
     ⟨none, .absent, 8, [], false⟩ true false rfl rfl rfl rfl (by decide) (by decide)⟩

/-! ### C2 — key-only input never feeds the idle clock -/

/-- Unfolding an iteration that has pending events. -/
theorem stepIter_events (s : LoopState) (inp : IterInput)
    (h : inp.events.isEmpty = false) :
    stepIter s inp =
      processEvents inp.now inp.events (checkConfig s inp.configMtime inp.configFile) := by
  simp only [stepIter]
  rw [h]
  simp

/-- A run of iterations each carrying at least one event, all key-class:
`last_activity`, `idle_seconds` and the published state come out as they
went in, whatever the key codes, volume or chord outcome. -/
theorem runLoop_keyOnly (s : LoopState) (inputs : List IterInput)
    (h : inputs.all keyOnlyInput = true) :
    (runLoop s inputs).1.lastActivity = s.lastActivity ∧
    (runLoop s inputs).1.idleSeconds = s.idleSeconds ∧
    (runLoop s inputs).1.published = s.published := by
  induction inputs generalizing s with
  | nil => exact ⟨rfl, rfl, rfl⟩
  | cons inp rest ih =>
    rw [List.all_cons, Bool.and_eq_true] at h
    obtain ⟨h1, h2⟩ := h
    rw [keyOnlyInput, Bool.and_eq_true, Bool.and_eq_true] at h1
    obtain ⟨⟨hmt, hne⟩, hall⟩ := h1
    have hmt' : inp.configMtime = none := Option.isNone_iff_eq_none.mp hmt
    have hempty : inp.events.isEmpty = false := by
      revert hne; cases inp.events.isEmpty <;> simp
    have hstep : stepIter s inp = processEvents inp.now inp.events s := by
      rw [stepIter_events s inp hempty, hmt', checkConfig_none]
    have hout1 := processEvents_keyOnly inp.now inp.events s hall
    have hout2 := processEvents_config_fields inp.now inp.events s
    simp only [runLoop, hstep]
    by_cases hterm : (processEvents inp.now inp.events s).2.2 = true
    · rw [if_pos hterm]
      exact ⟨hout1.1, hout2.1, hout1.2.1⟩
    · rw [if_neg hterm]
      have hrest := ih (processEvents inp.now inp.events s).1 h2
      exact ⟨hrest.1.trans hout1.1, hrest.2.1.trans hout2.1, hrest.2.2.trans hout1.2.1⟩

/-- C2: over any run whose iterations each deliver only key-class events
(any number of them), `last_activity` and the effective timeout are left
untouched, and at the first quiet poll after the run whose time puts the gap
since the original `last_activity` at or beyond the timeout, the reset
sequence fires. -/
theorem key_only_never_resets_clock (s : LoopState) (inputs : List IterInput)
    (t : Int) (file : JsonFile) (b : Bool)
    (hk : inputs.all keyOnlyInput = true)
    (ht : s.idleSeconds ≤ t - s.lastActivity) :
    (runLoop s inputs).1.lastActivity = s.lastActivity ∧
    (runLoop s inputs).1.idleSeconds = s.idleSeconds ∧
    (stepIter (runLoop s inputs).1 ⟨none, file, t, [], b⟩).2.1 =
      [.resetScript, .waitRecovery, .publish false] := by
  obtain ⟨h1, h2, _⟩ := runLoop_keyOnly s inputs hk
  refine ⟨h1, h2, ?_⟩
  rw [stepIter_noEvents _ _ rfl rfl, if_pos (by rw [h1, h2]; exact ht)]

/-- C2, witness: a burst of key-down/key-up traffic at time 1, then a quiet
poll at time 10 against timeout 5. -/
theorem key_only_never_resets_clock_witness :
    ([(⟨none, .absent, 1, [.key 30 1, .key 30 0], true⟩ : IterInput)].all keyOnlyInput
        = true) ∧
    ((⟨0, ∅, 5, 0, some true⟩ : LoopState).idleSeconds ≤
      10 - (⟨0, ∅, 5, 0, some true⟩ : LoopState).lastActivity) ∧
    ((runLoop ⟨0, ∅, 5, 0, some true⟩
        [⟨none, .absent, 1, [.key 30 1, .key 30 0], true⟩]).1.lastActivity =
      (⟨0, ∅, 5, 0, some true⟩ : LoopState).lastActivity ∧
     (runLoop ⟨0, ∅, 5, 0, some true⟩
        [⟨none, .absent, 1, [.key 30 1, .key 30 0], true⟩]).1.idleSeconds =
      (⟨0, ∅, 5, 0, some true⟩ : LoopState).idleSeconds ∧
     (stepIter (runLoop ⟨0, ∅, 5, 0, some true⟩
          [⟨none, .absent, 1, [.key 30 1, .key 30 0], true⟩]).1
        ⟨none, .absent, 10, [], true⟩).2.1 =
      [.resetScript, .waitRecovery, .publish false]) :=
  ⟨by decide, by decide,
   key_only_never_resets_clock ⟨0, ∅, 5, 0, some true⟩
     [⟨none, .absent, 1, [.key 30 1, .key 30 0], true⟩] 10 .absent true
     (by decide) (by decide)⟩

/-! ### C8 — mtime-gated configuration reload -/

/-- The config-reload check touches only the configuration fields. -/
theorem checkConfig_activity_fields (s : LoopState) (mt : Option Int) (file : JsonFile) :
    (checkConfig s mt file).lastActivity = s.lastActivity ∧
    (checkConfig s mt file).pressedKeys = s.pressedKeys ∧
    (checkConfig s mt file).published = s.published := by
  cases mt with
  | none => exact ⟨rfl, rfl, rfl⟩
  | some m =>
    rw [checkConfig]
    split <;> exact ⟨rfl, rfl, rfl⟩

/-- Whatever an iteration does after the config check — event processing or
the idle branch — the configuration fields it ends with are exactly those
the config check produced. -/
theorem stepIter_config_fields (s : LoopState) (inp : IterInput) :
    (stepIter s inp).1.idleSeconds =
      (checkConfig s inp.configMtime inp.configFile).idleSeconds ∧
    (stepIter s inp).1.lastConfigMtime =
      (checkConfig s inp.configMtime inp.configFile).lastConfigMtime := by
  simp only [stepIter]
  split
  · split
    · exact ⟨rfl, rfl⟩
    · exact ⟨rfl, rfl⟩
  · exact processEvents_config_fields _ _ _

/-- C8: the effective timeout is reloaded in an iteration exactly when the
configuration file is present and its modification time differs from the
last-seen value — an absent file (or a raising mtime probe) keeps the last
good configuration, an unchanged mtime skips the reload even if the
contents changed, and a changed mtime installs `load_idle_timeout` of the
current file and records the new mtime, taking effect within the same
iteration. -/
theorem config_reload_iff_mtime_change (s : LoopState) (m : Int)
    (file file' : JsonFile) (inp : IterInput) :
    checkConfig s none file = s ∧
    checkConfig s (some s.lastConfigMtime) file' = s ∧
    (checkConfig s (some m) file).idleSeconds =
      (if m = s.lastConfigMtime then s.idleSeconds else load_idle_timeout file) ∧
    (checkConfig s (some m) file).lastConfigMtime =
      (if m = s.lastConfigMtime then s.lastConfigMtime else m) ∧
    (stepIter s inp).1.idleSeconds =
      (checkConfig s inp.configMtime inp.configFile).idleSeconds ∧
    (stepIter s inp).1.lastConfigMtime =
      (checkConfig s inp.configMtime inp.configFile).lastConfigMtime := by
  refine ⟨rfl, by rw [checkConfig]; simp, ?_, ?_, (stepIter_config_fields s inp).1,
    (stepIter_config_fields s inp).2⟩
  · by_cases hm : m = s.lastConfigMtime <;> simp [checkConfig, hm]
  · by_cases hm : m = s.lastConfigMtime <;> simp [checkConfig, hm]

/-! ### C9 — the loop with an empty wait set -/

/-- An iteration whose `select` reported nothing never stops the loop and
never stops services. -/
theorem stepIter_eventFree_no_stop (s : LoopState) (inp : IterInput)
    (h : inp.events.isEmpty = true) :
    (stepIter s inp).2.2 = false ∧
    Action.stopServices ∉ (stepIter s inp).2.1 := by
  simp only [stepIter, h, if_true]
  split
  · exact ⟨rfl, by simp⟩
  · exact ⟨rfl, by simp⟩

/-- A run of event-free iterations never exits the loop. -/
theorem runLoop_eventFree_runs (s : LoopState) (inputs : List IterInput)
    (h : inputs.all eventFree = true) :
    (runLoop s inputs).2.2 = false := by
  induction inputs generalizing s with
  | nil => rfl
  | cons inp rest ih =>
    rw [List.all_cons, Bool.and_eq_true] at h
    simp only [runLoop]
    rw [if_neg (by rw [(stepIter_eventFree_no_stop s inp h.1).1]; simp)]
    exact ih _ h.2

/-- C9: when `get_input_devices` keeps no candidate, `select` is called on
an empty descriptor list, which simply sleeps out its 1-second bound and
reports nothing ready, so every iteration of the loop carries an empty
event batch.  Such an iteration never terminates the loop and never stops
services, and it performs the reset sequence exactly when the configured
timeout has elapsed since `last_activity` — idle resets proceed purely on
elapsed time; a whole run of event-free iterations keeps the loop alive. -/
theorem empty_wait_set_loop_safe (cands : List RawDevice) (s : LoopState)
    (mt : Option Int) (file : JsonFile) (t : Int) (b : Bool)
    (inputs : List IterInput)
    (hq : get_input_devices cands = [])
    (he : inputs.all eventFree = true) :
    (stepIter s ⟨mt, file, t, [], b⟩).2.2 = false ∧
    Action.stopServices ∉ (stepIter s ⟨mt, file, t, [], b⟩).2.1 ∧
    (Action.resetScript ∈ (stepIter s ⟨mt, file, t, [], b⟩).2.1 ↔
      (checkConfig s mt file).idleSeconds ≤ t - s.lastActivity) ∧
    (runLoop s inputs).2.2 = false := by
  have hact := (checkConfig_activity_fields s mt file).1
  have hstop := stepIter_eventFree_no_stop s ⟨mt, file, t, [], b⟩ rfl
  refine ⟨hstop.1, hstop.2, ?_, runLoop_eventFree_runs s inputs he⟩
  have hunfold : stepIter s ⟨mt, file, t, [], b⟩ =
      if (checkConfig s mt file).idleSeconds ≤ t - (checkConfig s mt file).lastActivity then
        ({ checkConfig s mt file with lastActivity := t, published := some false },
         [.resetScript, .waitRecovery, .publish false], false)
      else (checkConfig s mt file, [], false) := rfl
  rw [hunfold]
  by_cases hc : (checkConfig s mt file).idleSeconds ≤ t - s.lastActivity
  · rw [if_pos (by rw [hact]; exact hc)]
    exact iff_of_true (by simp) hc
  · rw [if_neg (by rw [hact]; exact hc)]
    exact iff_of_false (by simp) hc

/-- C9, witness: one candidate device advertising only non-input
capabilities (`EV_SYN`, `EV_LED`) is filtered out, leaving zero tracked
devices; two event-free polls at times 3 and 10 against timeout 5, with the
single-step part evaluated at time 6. -/
theorem empty_wait_set_loop_safe_witness :
    (get_input_devices [⟨true, true, [0, 17]⟩] = []) ∧
    ([(⟨none, .absent, 3, [], true⟩ : IterInput),
      ⟨none, .absent, 10, [], true⟩].all eventFree = true) ∧
    ((stepIter ⟨0, ∅, 5, 0, some true⟩ ⟨none, .absent, 6, [], true⟩).2.2 = false ∧
     Action.stopServices ∉
       (stepIter ⟨0, ∅, 5, 0, some true⟩ ⟨none, .absent, 6, [], true⟩).2.1 ∧
     (Action.resetScript ∈
        (stepIter ⟨0, ∅, 5, 0, some true⟩ ⟨none, .absent, 6, [], true⟩).2.1 ↔
       (checkConfig ⟨0, ∅, 5, 0, some true⟩ none .absent).idleSeconds ≤
         6 - (⟨0, ∅, 5, 0, some true⟩ : LoopState).lastActivity) ∧
     (runLoop ⟨0, ∅, 5, 0, some true⟩
        [⟨none, .absent, 3, [], true⟩, ⟨none, .absent, 10, [], true⟩]).2.2 = false) :=
  ⟨rfl, rfl,
   empty_wait_set_loop_safe [⟨true, true, [0, 17]⟩] ⟨0, ∅, 5, 0, some true⟩
     none .absent 6 true
     [⟨none, .absent, 3, [], true⟩, ⟨none, .absent, 10, [], true⟩] rfl rfl⟩

end Kiosk
